import Mathlib

/-!
Verification of the fixed-size object pool allocator implemented in
`ObjectAllocator.cpp` (class `ObjectAllocator`).  The allocator hands out
equally sized object slots from raw byte pages, threads free slots onto an
intrusive free list stored inside the page bytes, and keeps statistics.

The shallow embedding below models raw memory as a byte store (a write
history read through `memRead`, extensionally an updated `Nat → Nat` map
from addresses to byte values; multi-byte accesses are little-endian,
matching the x86-64 native byte order the code runs on).  The intrusive free list and
the page list are represented exactly as in the code: only a head pointer
is kept in the allocator state, and every `Next` pointer lives in the
first `ptrSize` bytes of the node's memory.  The system heap is modelled
by a success oracle `ork : Nat → Bool` consulted once per heap allocation
attempt (tick counter `heapTick`), and by a fresh-address counter
`nextAddr`; `0` is the null pointer.  `unsigned` counters wrap modulo
`2 ^ 32`, `size_t` arithmetic wraps modulo `2 ^ 64`.
-/

set_option autoImplicit false
set_option maxRecDepth 20000
set_option maxHeartbeats 2000000

namespace OA

/-- `sizeof(void*)` on the 64-bit target (`static constexpr size_t ptrSize`). -/
def ptrSize : Nat := 8

/-- Modulus of C++ `unsigned` (32-bit) values. -/
def U32 : Nat := 2 ^ 32

/-- Modulus of C++ `size_t` (64-bit) values. -/
def U64 : Nat := 2 ^ 64

/-- 32-bit wrapping increment (`++x` on `unsigned`). -/
def u32inc (x : Nat) : Nat := (x + 1) % U32

/-- 32-bit wrapping decrement (`--x` on `unsigned`). -/
def u32dec (x : Nat) : Nat := (x + (U32 - 1)) % U32

/-- 32-bit wrapping subtraction (`x -= y` on `unsigned`). -/
def u32sub (x y : Nat) : Nat := (x + U32 - y % U32) % U32

/-- 64-bit wrapping subtraction (pointer difference cast to `size_t`). -/
def u64sub (x y : Nat) : Nat := (x + U64 - y % U64) % U64

/-- Modelled from the spec: the byte signatures are fixed constants declared
in the missing header `ObjectAllocator.h`; the spec pins their values
(`UNALLOCATED=0xAA`, `ALLOCATED=0xBB`, `FREED=0xCC`, `PAD=0xDD`,
`ALIGN=0xEE`). -/
def UNALLOCATED_PATTERN : Nat := 0xAA

/-- Modelled from the spec: see `UNALLOCATED_PATTERN`. -/
def ALLOCATED_PATTERN : Nat := 0xBB

/-- Modelled from the spec: see `UNALLOCATED_PATTERN`. -/
def FREED_PATTERN : Nat := 0xCC

/-- Modelled from the spec: see `UNALLOCATED_PATTERN`. -/
def PAD_PATTERN : Nat := 0xDD

/-- Modelled from the spec: see `UNALLOCATED_PATTERN`. -/
def ALIGN_PATTERN : Nat := 0xEE

/-- `static constexpr uint32_t freedFlag = 0x00u`. -/
def freedFlag : Nat := 0x00

/-- `static constexpr uint32_t allocFlag = 0x01u`. -/
def allocFlag : Nat := 0x01

/-- The header block variants (`OAConfig::HBLOCK_TYPE`). -/
inductive HBlockType where
  | hbNone
  | hbBasic
  | hbExtended
  | hbExternal
deriving DecidableEq, Repr

/-- The tagged error kinds of `OAException` (declared in the missing
header; the tags are named at each `throw` site in the source).
`eAssert` models a failing C `assert` (which aborts the process). -/
inductive OAErr where
  | E_NO_MEMORY
  | E_NO_PAGES
  | E_BAD_BOUNDARY
  | E_MULTIPLE_FREE
  | E_CORRUPTED_BLOCK
  | E_BAD_CONFIG
  | eAssert
deriving DecidableEq, Repr

/-- The allocator configuration `OAConfig` (fields read by the source;
`HSize_`, `HType_`, `HAdditional_` flatten `HBlockInfo_.size_`,
`HBlockInfo_.type_`, `HBlockInfo_.additional_`). -/
structure OAConfig where
  UseCPPMemManager_ : Bool
  MaxPages_ : Nat
  ObjectsPerPage_ : Nat
  PadBytes_ : Nat
  HType_ : HBlockType
  HSize_ : Nat
  HAdditional_ : Nat
  Alignment_ : Nat
  LeftAlignSize_ : Nat
  InterAlignSize_ : Nat
  DebugOn_ : Bool
deriving DecidableEq, Repr

/-- Modelled from the spec: the header-block size set by the `OAConfig`
constructor in the missing header — `none` 0 bytes, `basic` 5 bytes
(4-byte counter + flag byte), `extended` `userDefinedBytes + 7`,
`external` one pointer. -/
def hblockSize (t : HBlockType) (additional : Nat) : Nat :=
  match t with
  | .hbNone => 0
  | .hbBasic => 5
  | .hbExtended => additional + 7
  | .hbExternal => ptrSize

/-- The statistics block `OAStats`.  `ObjectSize_` and `PageSize_` are
`size_t`; the six counters are `unsigned` (32-bit). -/
structure OAStats where
  ObjectSize_ : Nat
  PageSize_ : Nat
  FreeObjects_ : Nat
  ObjectsInUse_ : Nat
  PagesInUse_ : Nat
  MostObjects_ : Nat
  Allocations_ : Nat
  Deallocations_ : Nat
deriving DecidableEq, Repr

/-- The zero-initialised statistics (`stats{}` in the constructor's
initialiser list). -/
def OAStats.init : OAStats :=
  ⟨0, 0, 0, 0, 0, 0, 0, 0⟩

/-- The external header descriptor `MemBlockInfo` (declared in the missing
header; the spec describes it as `in_use`, `allocation_number` and an owned
label string). -/
structure MemBlockInfo where
  in_use : Bool
  alloc_num : Nat
  label : String
deriving DecidableEq, Repr

/-- Decidable equality of `Except` results (for concrete evaluations). -/
instance {ε α : Type} [DecidableEq ε] [DecidableEq α] :
    DecidableEq (Except ε α)
  | .ok a, .ok b =>
    if h : a = b then .isTrue (by rw [h])
    else .isFalse (by intro hh; cases hh; exact h rfl)
  | .ok _, .error _ => .isFalse (by intro hh; cases hh)
  | .error _, .ok _ => .isFalse (by intro hh; cases hh)
  | .error e, .error f =>
    if h : e = f then .isTrue (by rw [h])
    else .isFalse (by intro hh; cases hh; exact h rfl)

/-- Raw byte memory, represented as a write history (newest entry first;
the last write to an address wins, and a never-written address reads as
zero).  This is extensionally the same store as an updated function
`Nat → Nat`, in a first-order form. -/
abbrev Mem := List (Nat × Nat)

/-- Read one byte: the most recent write to `a`, or `0`. -/
def memRead : Mem → Nat → Nat
  | [], _ => 0
  | (b, v) :: t, a => if a = b then v else memRead t a

/-- The allocator state: configuration, statistics, the two intrusive list
head pointers (`pageList` and `freeList`; `0` is null), the byte memory,
and the system-heap model (`nextAddr` fresh address source, `heapTick`
allocation attempt counter, `descs` the live heap-allocated
`MemBlockInfo` descriptors keyed by address). -/
structure OAState where
  config : OAConfig
  stats : OAStats
  pageList : Nat
  freeList : Nat
  mem : Mem
  nextAddr : Nat
  heapTick : Nat
  descs : List (Nat × MemBlockInfo)

/-- Write one byte (values stored reduced modulo 256). -/
def writeByte (m : Mem) (a v : Nat) : Mem :=
  (a, v % 256) :: m

/-- `memset(a, v, n)` / `WritePatternToBlock`: write `n` copies of byte `v`
starting at `a`. -/
def writeBytes (m : Mem) (a : Nat) : Nat → Nat → Mem
  | 0, _ => m
  | n + 1, v => writeByte (writeBytes m a n v) (a + n) v

/-- Read a 2-byte little-endian value (`uint16_t`). -/
def read2 (m : Mem) (a : Nat) : Nat :=
  memRead m a % 256 + memRead m (a + 1) % 256 * 256

/-- Read a 4-byte little-endian value (`uint32_t`). -/
def read4 (m : Mem) (a : Nat) : Nat :=
  memRead m a % 256 + memRead m (a + 1) % 256 * 256 +
    memRead m (a + 2) % 256 * 256 ^ 2 + memRead m (a + 3) % 256 * 256 ^ 3

/-- Read an 8-byte little-endian value (a stored pointer). -/
def read8 (m : Mem) (a : Nat) : Nat :=
  memRead m a % 256 + memRead m (a + 1) % 256 * 256 +
    memRead m (a + 2) % 256 * 256 ^ 2 + memRead m (a + 3) % 256 * 256 ^ 3 +
    memRead m (a + 4) % 256 * 256 ^ 4 + memRead m (a + 5) % 256 * 256 ^ 5 +
    memRead m (a + 6) % 256 * 256 ^ 6 + memRead m (a + 7) % 256 * 256 ^ 7

/-- Write a 2-byte little-endian value. -/
def write2 (m : Mem) (a v : Nat) : Mem :=
  writeByte (writeByte m a v) (a + 1) (v / 256)

/-- Write a 4-byte little-endian value. -/
def write4 (m : Mem) (a v : Nat) : Mem :=
  writeByte (writeByte (writeByte (writeByte m a v) (a + 1) (v / 256))
    (a + 2) (v / 256 ^ 2)) (a + 3) (v / 256 ^ 3)

/-- Write an 8-byte little-endian value (a stored pointer). -/
def write8 (m : Mem) (a v : Nat) : Mem :=
  writeByte (writeByte (writeByte (writeByte (writeByte (writeByte
    (writeByte (writeByte m a v) (a + 1) (v / 256)) (a + 2) (v / 256 ^ 2))
    (a + 3) (v / 256 ^ 3)) (a + 4) (v / 256 ^ 4)) (a + 5) (v / 256 ^ 5))
    (a + 6) (v / 256 ^ 6)) (a + 7) (v / 256 ^ 7)

/-- `UpdateAllocationStats`: `++Allocations_; ++ObjectsInUse_;
MostObjects_ = max(MostObjects_, ObjectsInUse_); --FreeObjects_`. -/
def UpdateAllocationStats (stats : OAStats) : OAStats :=
  let stats := { stats with Allocations_ := u32inc stats.Allocations_ }
  let stats := { stats with ObjectsInUse_ := u32inc stats.ObjectsInUse_ }
  let stats := { stats with MostObjects_ := max stats.MostObjects_ stats.ObjectsInUse_ }
  { stats with FreeObjects_ := u32dec stats.FreeObjects_ }

/-- `UpdateDeallocationStats`: `++FreeObjects_; ++Deallocations_;
--ObjectsInUse_`. -/
def UpdateDeallocationStats (stats : OAStats) : OAStats :=
  let stats := { stats with FreeObjects_ := u32inc stats.FreeObjects_ }
  let stats := { stats with Deallocations_ := u32inc stats.Deallocations_ }
  { stats with ObjectsInUse_ := u32dec stats.ObjectsInUse_ }

/-- The per-block stride `HBlockInfo_.size_ + PadBytes_ + ObjectSize +
PadBytes_ + InterAlignSize_` (the factor of `totalBlockSize` in the
constructor, also `objAdvSize` in the traversal code). -/
def strideOf (cfg : OAConfig) (objSize : Nat) : Nat :=
  cfg.HSize_ + cfg.PadBytes_ + objSize + cfg.PadBytes_ + cfg.InterAlignSize_

/-- The user-region start address of slot `k` on the page based at `base`:
page next-pointer, left alignment, `k` full strides, then this slot's
header and left pad. -/
def slotAddr (cfg : OAConfig) (objSize base k : Nat) : Nat :=
  base + ptrSize + cfg.LeftAlignSize_ + k * strideOf cfg objSize + cfg.HSize_ +
    cfg.PadBytes_

/-- One iteration of the slot-threading loop in `CreatePage`: zero the
header, paint the left pad, head-insert the user-region start onto the
free list (`freeList->Next = prev` stored in the node's first 8 bytes),
skip the object, paint the right pad, and paint the inter-alignment
unless the advance pointer has reached the page end.  Returns the new
memory, free-list head and advance pointer. -/
def threadBlock (cfg : OAConfig) (objSize pageEnd : Nat) (m : Mem)
    (fl adv : Nat) : Mem × Nat × Nat :=
  let m := writeBytes m adv cfg.HSize_ 0
  let adv := adv + cfg.HSize_
  let m := writeBytes m adv cfg.PadBytes_ PAD_PATTERN
  let adv := adv + cfg.PadBytes_
  let m := write8 m adv fl
  let fl := adv
  let adv := adv + objSize
  let m := writeBytes m adv cfg.PadBytes_ PAD_PATTERN
  let adv := adv + cfg.PadBytes_
  if adv ≠ pageEnd then
    (writeBytes m adv cfg.InterAlignSize_ ALIGN_PATTERN, fl,
      adv + cfg.InterAlignSize_)
  else
    (m, fl, adv)

/-- The `while (advancePtr != pagePtrEnd)` loop of `CreatePage`, with an
iteration bound.  `CreatePage` passes `ObjectsPerPage_` as the bound: with
the page geometry computed by the constructor the loop body executes
exactly once per slot, so the bound is never the reason the loop stops. -/
def threadLoop (cfg : OAConfig) (objSize pageEnd : Nat) :
    Nat → Mem → Nat → Nat → Mem × Nat × Nat
  | 0, m, fl, adv => (m, fl, adv)
  | n + 1, m, fl, adv =>
    if adv = pageEnd then (m, fl, adv)
    else
      let r := threadBlock cfg objSize pageEnd m fl adv
      threadLoop cfg objSize pageEnd n r.1 r.2.1 r.2.2

/-- `ObjectAllocator::CreatePage`: acquire `PageSize_` raw bytes from the
system heap (fail with `E_NO_MEMORY` if the oracle refuses), paint the
page `UNALLOCATED`, link it at the head of the page list, paint the left
alignment, thread every slot onto the free list, and update
`PagesInUse_` / `FreeObjects_`. -/
def CreatePage (ork : Nat → Bool) (s : OAState) :
    Except OAErr Unit × OAState :=
  if ork s.heapTick = false then
    (.error .E_NO_MEMORY, { s with heapTick := s.heapTick + 1 })
  else
    let rawMem := s.nextAddr
    let s := { s with
      heapTick := s.heapTick + 1
      nextAddr := s.nextAddr + s.stats.PageSize_ }
    let m := writeBytes s.mem rawMem s.stats.PageSize_ UNALLOCATED_PATTERN
    let m := write8 m rawMem s.pageList
    let adv := rawMem + ptrSize
    let m := writeBytes m adv s.config.LeftAlignSize_ ALIGN_PATTERN
    let adv := adv + s.config.LeftAlignSize_
    let pageEnd := rawMem + s.stats.PageSize_
    let r := threadLoop s.config s.stats.ObjectSize_ pageEnd
      s.config.ObjectsPerPage_ m s.freeList adv
    let stats := { s.stats with
      PagesInUse_ := u32inc s.stats.PagesInUse_
      FreeObjects_ := (s.stats.FreeObjects_ + s.config.ObjectsPerPage_) % U32 }
    (.ok (), { s with
      mem := r.1
      freeList := r.2.1
      pageList := rawMem
      stats := stats })

/-- The alignment-derivation block at the top of the `ObjectAllocator`
constructor: when `Alignment_ > 0`, overwrite `LeftAlignSize_` (resp.
`InterAlignSize_`) with the byte count that makes the first (resp. each
subsequent) user region land on an alignment boundary, leaving the
incoming value in place when the prefix is already a multiple. -/
def derivedConfig (ObjectSize : Nat) (configuration : OAConfig) : OAConfig :=
  let config := configuration
  if 0 < config.Alignment_ then
    let leftAlignSize := ptrSize + config.HSize_ + config.PadBytes_
    let remainder := leftAlignSize % config.Alignment_
    let config :=
      if remainder ≠ 0 then
        { config with LeftAlignSize_ := config.Alignment_ - remainder }
      else config
    let interAlignSize := ObjectSize + config.HSize_ + config.PadBytes_ * 2
    let remainder := interAlignSize % config.Alignment_
    if remainder ≠ 0 then
      { config with InterAlignSize_ := config.Alignment_ - remainder }
    else config
  else config

/-- The page byte count computed by the constructor (`size_t`
arithmetic): `ptrSize + LeftAlignSize_ + totalBlockSize -
InterAlignSize_`, with `totalBlockSize = ObjectsPerPage_ · stride`.
`config` is the already-derived configuration. -/
def computedPageSize (ObjectSize : Nat) (config : OAConfig) : Nat :=
  let totalBlockSize :=
    config.ObjectsPerPage_ * (config.HSize_ + config.PadBytes_ + ObjectSize +
      config.PadBytes_ + config.InterAlignSize_) % U64
  u64sub ((ptrSize + config.LeftAlignSize_ + totalBlockSize) % U64)
    config.InterAlignSize_

/-- The allocator state assembled by the constructor's initialiser list
and statistics assignments, before `CreatePage` runs: null lists, fresh
world (`mem` all zero, `nextAddr = 16`, `heapTick = 0`, no descriptors),
zeroed statistics except `ObjectSize_` and `PageSize_`. -/
def initState (ObjectSize : Nat) (configuration : OAConfig) : OAState :=
  let config := derivedConfig ObjectSize configuration
  let stats := { OAStats.init with
    ObjectSize_ := ObjectSize
    MostObjects_ := 0
    PageSize_ := computedPageSize ObjectSize config }
  ⟨config, stats, 0, 0, [], 16, 0, []⟩

/-- The `ObjectAllocator` constructor: derive `LeftAlignSize_` and
`InterAlignSize_` when `Alignment_ > 0`, compute the page byte count,
record `ObjectSize_` / `PageSize_` / `MostObjects_` in the statistics,
and build the first page immediately.  There is no validity check of any
kind on the configuration. -/
def construct (ork : Nat → Bool) (ObjectSize : Nat)
    (configuration : OAConfig) : Except OAErr OAState :=
  match CreatePage ork (initState ObjectSize configuration) with
  | (.ok _, s) => .ok s
  | (.error e, _) => .error e

/-- The free-list scan of `ObjectAllocator::IsMemoryFreed`: walk the
intrusive list from `curr` following the stored `Next` pointers; `true`
iff `obj` is found.  `fuel` bounds the walk (the C++ loop would diverge
on a cyclic list). -/
def scanFreeLoop (m : Mem) (obj : Nat) : Nat → Nat → Bool
  | 0, _ => false
  | fuel + 1, curr =>
    if curr = 0 then false
    else if obj = curr then true
    else scanFreeLoop m obj fuel (read8 m curr)

/-- `ObjectAllocator::IsMemoryFreed`. -/
def IsMemoryFreed (s : OAState) (fuel objBlock : Nat) : Bool :=
  scanFreeLoop s.mem objBlock fuel s.freeList

/-- The page walk of `ObjectAllocator::FindPage`: return the first page
whose byte range `[page, page + PageSize_)` contains `objBlock`. -/
def findPageLoop (m : Mem) (pageSize objBlock : Nat) :
    Nat → Nat → Option Nat
  | 0, _ => none
  | fuel + 1, page =>
    if page = 0 then none
    else if page ≤ objBlock ∧ objBlock < page + pageSize then some page
    else findPageLoop m pageSize objBlock fuel (read8 m page)

/-- `ObjectAllocator::FindPage`. -/
def FindPage (s : OAState) (fuel objBlock : Nat) : Option Nat :=
  findPageLoop s.mem s.stats.PageSize_ objBlock fuel s.pageList

/-- `ObjectAllocator::IsValidAlignment`: `objBlock - dataBlockStart` is a
`uint8_t*` difference assigned to a `size_t`, hence wraps modulo `2^64`
when `objBlock` lies before the first user region; the check only asks
whether that wrapped difference is a multiple of the slot stride. -/
def IsValidAlignment (s : OAState) (objBlock pageLocation : Nat) : Bool :=
  if pageLocation = 0 then false
  else
    let dataBlockStart := pageLocation + ptrSize + s.config.LeftAlignSize_ +
      s.config.HSize_ + s.config.PadBytes_
    let objAdvSize := s.stats.ObjectSize_ + s.config.PadBytes_ * 2 +
      s.config.InterAlignSize_ + s.config.HSize_
    let actualSize := u64sub objBlock dataBlockStart
    actualSize % objAdvSize = 0

/-- The pad-band scan of `IsPaddingCorrupted`: `true` iff one of the first
`i` bytes of either pad band differs from `PAD_PATTERN`. -/
def padScan (m : Mem) (padStart padEnd : Nat) : Nat → Bool
  | 0 => false
  | i + 1 =>
    padScan m padStart padEnd i ||
      !(memRead m (padStart + i) == PAD_PATTERN) ||
      !(memRead m (padEnd + i) == PAD_PATTERN)

/-- `ObjectAllocator::IsPaddingCorrupted`. -/
def IsPaddingCorrupted (s : OAState) (objBlock : Nat) : Bool :=
  if s.config.PadBytes_ = 0 then false
  else
    let padStart := u64sub objBlock s.config.PadBytes_
    let padEnd := padStart + s.stats.ObjectSize_ + s.config.PadBytes_
    padScan s.mem padStart padEnd s.config.PadBytes_

/-- The header start address `objBlock - PadBytes_ - HBlockInfo_.size_`
(pointer arithmetic, wrapping like the underlying 64-bit pointers). -/
def headerStartOf (cfg : OAConfig) (objBlock : Nat) : Nat :=
  u64sub (u64sub objBlock cfg.PadBytes_) cfg.HSize_

/-- `ObjectAllocator::UpdateHeaderInfo`: write the allocation counter and
flag of a `basic` or `extended` header (plus the use-counter increment on
allocation), or update the external descriptor's fields through the
stored pointer.  Counter values written on allocation are the current
(already incremented) `Allocations_`. -/
def UpdateHeaderInfo (s : OAState) (objBlock flag : Nat) : OAState :=
  let headerStart := headerStartOf s.config objBlock
  let isFromAllocateFunc := flag = allocFlag
  match s.config.HType_ with
  | .hbNone => s
  | .hbBasic =>
    let m := write4 s.mem headerStart
      (if isFromAllocateFunc then s.stats.Allocations_ else 0)
    let m := writeByte m (headerStart + 4) flag
    { s with mem := m }
  | .hbExtended =>
    let h := headerStart + s.config.HAdditional_
    let m :=
      if isFromAllocateFunc then write2 s.mem h ((read2 s.mem h + 1) % 2 ^ 16)
      else s.mem
    let h := h + 2
    let m := write4 m h (if isFromAllocateFunc then s.stats.Allocations_ else 0)
    let m := writeByte m (h + 4) flag
    { s with mem := m }
  | .hbExternal =>
    let p := read8 s.mem headerStart
    if p = 0 then s
    else
      { s with descs := s.descs.map (fun e =>
          if e.1 = p then
            (e.1, { e.2 with
              in_use := isFromAllocateFunc
              alloc_num := if isFromAllocateFunc then
                s.stats.Allocations_ else 0 })
          else e) }

/-- `ObjectAllocator::AllocateExternalHeader`: heap-allocate a
`MemBlockInfo` descriptor (fail with `E_NO_MEMORY`), then heap-allocate
its label string (fail with `E_NO_MEMORY`, in which case the descriptor
just allocated is NOT freed and stays live), copy the label (empty when
null), and store the descriptor address in the header pointer slot.
Descriptor fields other than the label start zeroed. -/
def AllocateExternalHeader (ork : Nat → Bool) (s : OAState)
    (objBlock : Nat) (label : Option String) :
    Except OAErr Unit × OAState :=
  let headerStart := headerStartOf s.config objBlock
  if ork s.heapTick = false then
    (.error .E_NO_MEMORY, { s with heapTick := s.heapTick + 1 })
  else
    let infoAddr := s.nextAddr
    let s := { s with
      heapTick := s.heapTick + 1
      nextAddr := s.nextAddr + 1
      descs := (infoAddr, ⟨false, 0, ""⟩) :: s.descs }
    let len := match label with | none => 0 | some l => l.length
    if ork s.heapTick = false then
      (.error .E_NO_MEMORY, { s with heapTick := s.heapTick + 1 })
    else
      let s := { s with
        heapTick := s.heapTick + 1
        nextAddr := s.nextAddr + (len + 1) }
      let labelStr := match label with | none => "" | some l => l
      let newDescs := s.descs.map (fun (e : Nat × MemBlockInfo) =>
        if e.1 = infoAddr then (e.1, { e.2 with label := labelStr }) else e)
      let s := { s with descs := newDescs }
      (.ok (), { s with mem := write8 s.mem headerStart infoAddr })

/-- `ObjectAllocator::FreeExternalHeader`: read the descriptor address
from the header slot, return the descriptor (and its label) to the
system heap, and null the header pointer. -/
def FreeExternalHeader (s : OAState) (objBlock : Nat) : OAState :=
  let headerStart := headerStartOf s.config objBlock
  let infoAddr := read8 s.mem headerStart
  let s := { s with descs := s.descs.filter (fun e => !(e.1 == infoAddr)) }
  { s with mem := write8 s.mem headerStart 0 }

/-- `ObjectAllocator::Allocate`: bypass to the system heap when
`UseCPPMemManager_`; otherwise refill from a new page when the free list
is empty (or fail with `E_NO_PAGES` at the page cap), pop the free-list
head, paint it `ALLOCATED`, update the statistics, build the external
header if configured (an `E_NO_MEMORY` raised there propagates with the
mutations already performed left in place), and write the header info.
`eAssert` models the C `assert(freeList)`. -/
def Allocate (ork : Nat → Bool) (label : Option String) (s : OAState) :
    Except OAErr Nat × OAState :=
  if s.config.UseCPPMemManager_ then
    let addr := s.nextAddr
    (.ok addr, { s with
      stats := UpdateAllocationStats s.stats
      heapTick := s.heapTick + 1
      nextAddr := s.nextAddr + s.stats.ObjectSize_ })
  else
    let step : Except OAErr Unit × OAState :=
      if s.freeList = 0 then
        if s.config.MaxPages_ = 0 ∨ s.stats.PagesInUse_ < s.config.MaxPages_
        then CreatePage ork s
        else (.error .E_NO_PAGES, s)
      else (.ok (), s)
    match step with
    | (.error e, s) => (.error e, s)
    | (.ok _, s) =>
      if s.freeList = 0 then (.error .eAssert, s)
      else
        let freeBlock := s.freeList
        let s := { s with freeList := read8 s.mem freeBlock }
        let headerBlock := freeBlock
        let s := { s with
          mem := writeBytes s.mem freeBlock s.stats.ObjectSize_
            ALLOCATED_PATTERN }
        let s := { s with stats := UpdateAllocationStats s.stats }
        match (if s.config.HType_ = .hbExternal then
                 AllocateExternalHeader ork s headerBlock label
               else (.ok (), s)) with
        | (.error e, s) => (.error e, s)
        | (.ok _, s) => (.ok freeBlock, UpdateHeaderInfo s headerBlock allocFlag)

/-- The mutation phase of `ObjectAllocator::Free`, reached after the
debug checks pass (or are disabled): paint the user region `FREED`,
head-insert it onto the free list (the `Next` pointer is written after
the paint, "last to prevent overwrite"), update the statistics, clear the
header, and free the external descriptor if configured. -/
def FreeBody (s : OAState) (objBlock : Nat) : OAState :=
  let s := { s with
    mem := writeBytes s.mem objBlock s.stats.ObjectSize_ FREED_PATTERN }
  let s := { s with
    mem := write8 s.mem objBlock s.freeList
    freeList := objBlock }
  let s := { s with stats := UpdateDeallocationStats s.stats }
  let s := UpdateHeaderInfo s objBlock freedFlag
  if s.config.HType_ = .hbExternal then FreeExternalHeader s objBlock else s

/-- `ObjectAllocator::Free`: bypass mode updates the deallocation
statistics and returns the bytes to the system heap (even for a null
argument); otherwise a null argument returns silently; in debug mode the
four checks run in order — double-free scan, page range, alignment,
padding — each raising its error with no state mutated; then the
mutation phase runs. -/
def Free (fuel : Nat) (Object : Nat) (s : OAState) :
    Except OAErr Unit × OAState :=
  if s.config.UseCPPMemManager_ then
    (.ok (), { s with stats := UpdateDeallocationStats s.stats })
  else if Object = 0 then (.ok (), s)
  else if s.config.DebugOn_ then
    if IsMemoryFreed s fuel Object then (.error .E_MULTIPLE_FREE, s)
    else
      match FindPage s fuel Object with
      | none => (.error .E_BAD_BOUNDARY, s)
      | some pageFound =>
        if !(IsValidAlignment s Object pageFound) then
          (.error .E_BAD_BOUNDARY, s)
        else if IsPaddingCorrupted s Object then
          (.error .E_CORRUPTED_BLOCK, s)
        else (.ok (), FreeBody s Object)
  else (.ok (), FreeBody s Object)

/-- `ObjectAllocator::IsObjectBlockInUse`: read the in-use flag from the
header (or the external descriptor), or fall back to a free-list scan
when there is no header. -/
def IsObjectBlockInUse (s : OAState) (fuel objBlock : Nat) : Bool :=
  match s.config.HType_ with
  | .hbNone => !(IsMemoryFreed s fuel objBlock)
  | .hbBasic =>
    let headerStart := headerStartOf s.config objBlock
    !(memRead s.mem (headerStart + 4) == 0)
  | .hbExtended =>
    let headerStart := headerStartOf s.config objBlock
    !(memRead s.mem (headerStart + s.config.HAdditional_ + 2 + 4) == 0)
  | .hbExternal =>
    let headerStart := headerStartOf s.config objBlock
    let p := read8 s.mem headerStart
    match s.descs.find? (fun e => e.1 == p) with
    | some e => e.2.in_use
    | none => false

/-- The mutable locals of the free-list excision loop in
`ObjectAllocator::FreePage`: the memory (the `Next` pointers live in it),
the free-list head, `currFreeBlock`, `prevFreeBlock`, `objFreed`, and the
page-slot cursor `objMem`. -/
structure ExciseSt where
  mem : Mem
  head : Nat
  curr : Nat
  prev : Nat
  objFreed : Nat
  objMem : Nat

/-- The inner `for (i = 0; i < ObjectsPerPage_; ++i)` of the excision
loop in `FreePage`: when `currFreeBlock` equals the slot cursor, unlink
it — through `prevFreeBlock->Next` when there is a previous node (note
the source never re-reads `prevFreeBlock` here, so if it points at an
already unlinked node the write lands in the unlinked node, not in the
live list), or by advancing the head (and `currFreeBlock`) otherwise —
and advance the slot cursor except after the last slot.  `i` is the
current index, `n` the remaining iterations, `lastIdx` is
`ObjectsPerPage_ - 1`.  The cursor `objMem` is NOT reset between outer
iterations (it is a plain local of `FreePage`). -/
def exciseFor (objAdv lastIdx : Nat) : Nat → Nat → ExciseSt → ExciseSt
  | _, 0, st => st
  | i, n + 1, st =>
    let st :=
      if st.curr = st.objMem then
        if st.prev ≠ 0 then
          { st with
            mem := write8 st.mem st.prev (read8 st.mem st.curr)
            objFreed := st.objFreed + 1 }
        else
          let h := read8 st.mem st.curr
          { st with head := h, curr := h, objFreed := st.objFreed + 1 }
      else st
    let st := if i ≠ lastIdx then { st with objMem := st.objMem + objAdv }
              else st
    exciseFor objAdv lastIdx (i + 1) n st

/-- The outer `while (currFreeBlock)` of the excision loop in `FreePage`:
run the inner scan, stop early once `objFreed` reaches `ObjectsPerPage_`,
otherwise advance `prevFreeBlock` and `currFreeBlock` down the list. -/
def exciseWhile (opp objAdv : Nat) : Nat → ExciseSt → ExciseSt
  | 0, st => st
  | fuel + 1, st =>
    if st.curr = 0 then st
    else
      let st := exciseFor objAdv (opp - 1) 0 opp st
      if st.objFreed = opp then st
      else
        let st := { st with prev := st.curr }
        let st := if st.curr ≠ 0 then { st with curr := read8 st.mem st.curr }
                  else st
        exciseWhile opp objAdv fuel st

/-- `ObjectAllocator::FreePage`: free the external header of the FIRST
slot when configured, excise this page's slot addresses from the free
list (see `exciseFor` for the slips in that loop), unlink the page from
the page list (through `prevPage->Next`, or the head), and decrement
`PagesInUse_` / `FreeObjects_` (each clamped with a no-op unsigned
`max(0u, ·)`).  Returns the updated state and the new value of the
by-reference `currPage` argument. -/
def FreePage (s : OAState) (fuel currPage prevPage : Nat) :
    OAState × Nat :=
  if currPage = 0 then (s, currPage)
  else
    let objMem := currPage + ptrSize + s.config.LeftAlignSize_ +
      s.config.HSize_ + s.config.PadBytes_
    let s := if s.config.HType_ = .hbExternal then FreeExternalHeader s objMem
             else s
    let objAdvSize := s.stats.ObjectSize_ + s.config.PadBytes_ * 2 +
      s.config.InterAlignSize_ + s.config.HSize_
    let st0 : ExciseSt := ⟨s.mem, s.freeList, s.freeList, 0, 0, objMem⟩
    let st := exciseWhile s.config.ObjectsPerPage_ objAdvSize fuel st0
    let s := { s with mem := st.mem, freeList := st.head }
    let r :=
      if prevPage ≠ 0 then
        let nx := read8 s.mem currPage
        ({ s with mem := write8 s.mem prevPage nx }, nx)
      else
        let nx := read8 s.mem currPage
        ({ s with pageList := nx }, nx)
    let s := r.1
    let stats := { s.stats with
      PagesInUse_ := max 0 (u32dec s.stats.PagesInUse_)
      FreeObjects_ := max 0 (u32sub s.stats.FreeObjects_
        s.config.ObjectsPerPage_) }
    ({ s with stats := stats }, r.2)

/-- The per-page in-use count of `FreeEmptyPages`: count the slots on
which `IsObjectBlockInUse` holds, advancing the cursor except after the
last slot. -/
def inUseCountLoop (s : OAState) (fuel objAdv lastIdx : Nat) :
    Nat → Nat → Nat → Nat → Nat
  | _, 0, _, acc => acc
  | i, n + 1, objData, acc =>
    let acc := if IsObjectBlockInUse s fuel objData then acc + 1 else acc
    let objData := if i ≠ lastIdx then objData + objAdv else objData
    inUseCountLoop s fuel objAdv lastIdx (i + 1) n objData acc

/-- The `while (currPage)` of `FreeEmptyPages`: release each page with no
slot in use (recording its address in `memQueue`), keeping `prevPage` /
`currPage` in lockstep with the source.  Returns the state, the running
counter, and the recorded queue. -/
def freeEmptyLoop (fuel0 objAdv toDataOff : Nat) :
    Nat → OAState → Nat → Nat → Nat → List Nat →
    OAState × Nat × List Nat
  | 0, s, _, _, counter, queue => (s, counter, queue)
  | fuel + 1, s, currPage, prevPage, counter, queue =>
    if currPage = 0 then (s, counter, queue)
    else
      let objData := currPage + toDataOff
      let inUse := inUseCountLoop s fuel0 objAdv
        (s.config.ObjectsPerPage_ - 1) 0 s.config.ObjectsPerPage_ objData 0
      if inUse = 0 then
        let queue := queue ++ [currPage]
        let r := FreePage s fuel0 currPage prevPage
        freeEmptyLoop fuel0 objAdv toDataOff fuel r.1 r.2 prevPage
          (counter + 1) queue
      else
        let prevPage := currPage
        let currPage := if currPage ≠ 0 then read8 s.mem currPage
                        else currPage
        freeEmptyLoop fuel0 objAdv toDataOff fuel s currPage prevPage
          counter queue

/-- `ObjectAllocator::FreeEmptyPages`: allocate the `memQueue` scratch
array (fail with `E_NO_MEMORY`), walk the page list releasing every page
with no slot in use, and return the number of pages released together
with the recorded queue of released page addresses (the contents of
`memQueue`, whose byte arrays are returned to the system heap at the
end; the model does not blank freed bytes). -/
def FreeEmptyPages (ork : Nat → Bool) (fuel : Nat) (s : OAState) :
    Except OAErr (Nat × List Nat) × OAState :=
  let toDataOffset := ptrSize + s.config.LeftAlignSize_ + s.config.HSize_ +
    s.config.PadBytes_
  let objAdvancement := s.stats.ObjectSize_ + s.config.PadBytes_ * 2 +
    s.config.InterAlignSize_ + s.config.HSize_
  if ork s.heapTick = false then
    (.error .E_NO_MEMORY, { s with heapTick := s.heapTick + 1 })
  else
    let s := { s with
      heapTick := s.heapTick + 1
      nextAddr := s.nextAddr + ptrSize * s.stats.PagesInUse_ }
    let r := freeEmptyLoop fuel objAdvancement toDataOffset fuel s
      s.pageList 0 0 []
    (.ok (r.2.1, r.2.2), r.1)

/-- The always-granting system-heap oracle. -/
def exOrk : Nat → Bool := fun _ => true

/-- Project a successful construction result (the fallback arm is never
reached in the concrete scenarios below). -/
def stateOf (cfg : OAConfig) : Except OAErr OAState → OAState
  | .ok s => s
  | .error _ => ⟨cfg, OAStats.init, 0, 0, [], 0, 0, []⟩

/-- One acquire (label-less), keeping only the state. -/
def allocStep (ork : Nat → Bool) (s : OAState) : OAState :=
  (Allocate ork none s).2

/-- One release with scan fuel 50, keeping only the state. -/
def freeStep (a : Nat) (s : OAState) : OAState :=
  (Free 50 a s).2

/-- Configuration of spec scenario 6: `objectSize 8`, 4 objects per page,
unbounded pages, no pads, no header, no alignment, debug off. -/
def bugCfg : OAConfig :=
  ⟨false, 0, 4, 0, .hbNone, 0, 0, 0, 0, 0, false⟩

/-- Freshly constructed allocator for `bugCfg`: one page at 16
(`PageSize_ = 40`), free list `48 → 40 → 32 → 24`. -/
def bugS0 : OAState :=
  stateOf bugCfg (construct exOrk 8 bugCfg)

/-- After eight acquires: page 1 (base 16) and page 2 (base 56) both
fully in use, free list empty.  The acquires returned
48, 40, 32, 24, 88, 80, 72, 64 in that order. -/
def bugS8 : OAState :=
  allocStep exOrk (allocStep exOrk (allocStep exOrk (allocStep exOrk
    (allocStep exOrk (allocStep exOrk (allocStep exOrk
      (allocStep exOrk bugS0)))))))

/-- After releasing the four page-1 slots in ascending address order
(24, 32, 40, 48): the free list reads `48 → 40 → 32 → 24`, page 1 is
empty, page 2 fully in use. -/
def bugS9 : OAState :=
  freeStep 48 (freeStep 40 (freeStep 32 (freeStep 24 bugS8)))

/-- Configuration with a `basic` header: `objectSize 16`, 2 objects per
page (spec scenario 4). -/
def basicCfg : OAConfig :=
  ⟨false, 0, 2, 0, .hbBasic, 5, 0, 0, 0, 0, false⟩

/-- Freshly constructed allocator for `basicCfg`: page at 16, slots with
user regions at 50 and 29, free-list head 50. -/
def basicS0 : OAState :=
  stateOf basicCfg (construct exOrk 16 basicCfg)

/-- Configuration with an `external` header (pointer-sized), one object
per page, no pads. -/
def extCfg : OAConfig :=
  ⟨false, 0, 1, 0, .hbExternal, 8, 0, 0, 0, 0, false⟩

/-- Oracle that grants the page (tick 0) and the descriptor (tick 1) but
refuses the descriptor's label string (tick 2). -/
def extOrk : Nat → Bool := fun t => decide (t ≠ 2)

/-- Freshly constructed allocator for `extCfg` under `extOrk`: page at
16 (`PageSize_ = 24`), single slot with user region at 32. -/
def extS0 : OAState :=
  stateOf extCfg (construct extOrk 8 extCfg)

/-- Debug-on configuration, one object per page, page cap 2. -/
def dbgCfg : OAConfig :=
  ⟨false, 2, 1, 0, .hbNone, 0, 0, 0, 0, 0, true⟩

/-- Allocator for `dbgCfg` after acquiring the single slot (24) and
releasing it once: the free list is exactly `[24]`. -/
def dbgS2 : OAState :=
  freeStep 24 (allocStep exOrk (stateOf dbgCfg (construct exOrk 8 dbgCfg)))

/-- Debug-on configuration with two slots per page and no pads. -/
def dbg2Cfg : OAConfig :=
  ⟨false, 0, 2, 0, .hbNone, 0, 0, 0, 0, 0, true⟩

/-- Freshly constructed allocator for `dbg2Cfg`: page at 16
(`PageSize_ = 24`), user regions at 24 and 32, free list `32 → 24`. -/
def dbg2S0 : OAState :=
  stateOf dbg2Cfg (construct exOrk 8 dbg2Cfg)

/-- System-heap bypass configuration (`UseCPPMemManager_`). -/
def bypassCfg : OAConfig :=
  ⟨true, 0, 4, 0, .hbNone, 0, 0, 0, 0, 0, false⟩

/-- Freshly constructed allocator for `bypassCfg` (a page is built even
in bypass mode). -/
def bypassS0 : OAState :=
  stateOf bypassCfg (construct exOrk 8 bypassCfg)

/-- A configuration the spec calls invalid: `Alignment_ = 3` is not a
power of two (and it is paired below with `objectSize 4 < ptrSize`). -/
def badCfg : OAConfig :=
  ⟨false, 0, 1, 0, .hbNone, 0, 0, 3, 0, 0, false⟩

/-- `DecodesFL m head L`: the byte memory `m` encodes, from `head`, the
intrusive singly-linked list whose nodes are exactly the addresses in
`L` in order (each node's `Next` pointer occupies its first 8 bytes; `0`
terminates). -/
inductive DecodesFL (m : Mem) : Nat → List Nat → Prop where
  | nil : DecodesFL m 0 []
  | cons {a : Nat} {L : List Nat} (ha : a ≠ 0)
      (tail : DecodesFL m (read8 m a) L) : DecodesFL m a (a :: L)

/-- Every member of a decoded list is a non-null address. -/
theorem DecodesFL.mem_ne_zero {m : Mem} {h : Nat} {L : List Nat}
    (hd : DecodesFL m h L) {a : Nat} (hmem : a ∈ L) : a ≠ 0 := by
  induction hd with
  | nil => cases hmem
  | cons ha _ ih =>
    rcases List.mem_cons.mp hmem with rfl | hmem
    · exact ha
    · exact ih hmem

/-- The free-list scan finds every member of the decoded list, given
fuel at least the list length. -/
theorem scanFreeLoop_mem {m : Mem} {h : Nat} {L : List Nat}
    (hd : DecodesFL m h L) {a : Nat} (hmem : a ∈ L) :
    ∀ fuel, L.length ≤ fuel → scanFreeLoop m a fuel h = true := by
  induction hd with
  | nil => cases hmem
  | @cons b L hb _ ih =>
    intro fuel hfuel
    match fuel, hfuel with
    | f + 1, hfuel =>
      rcases List.mem_cons.mp hmem with rfl | hmem
      · simp [scanFreeLoop, hb]
      · by_cases hab : a = b
        · simp [scanFreeLoop, hb, hab]
        · simpa [scanFreeLoop, hb, hab] using
            ih hmem f (by simpa using Nat.lt_succ_iff.mp hfuel)

/-- The free-list scan never finds an address absent from the decoded
list, whatever the fuel. -/
theorem scanFreeLoop_not_mem {m : Mem} {h : Nat} {L : List Nat}
    (hd : DecodesFL m h L) {a : Nat} (hmem : a ∉ L) :
    ∀ fuel, scanFreeLoop m a fuel h = false := by
  induction hd with
  | nil =>
    intro fuel
    cases fuel <;> simp [scanFreeLoop]
  | @cons b L hb _ ih =>
    intro fuel
    cases fuel with
    | zero => simp [scanFreeLoop]
    | succ f =>
      have hab : a ≠ b := fun hh => hmem (hh ▸ List.mem_cons_self b L)
      have hmem' : a ∉ L := fun hh => hmem (List.mem_cons_of_mem b hh)
      simpa [scanFreeLoop, hb, hab] using ih hmem' f

/-- `findPageLoop` only ever returns a non-null page address. -/
theorem findPageLoop_ne_zero {m : Mem} {pageSize objBlock : Nat} :
    ∀ {fuel page pg : Nat},
      findPageLoop m pageSize objBlock fuel page = some pg → pg ≠ 0 := by
  intro fuel
  induction fuel with
  | zero => intro page pg hh; simp [findPageLoop] at hh
  | succ f ih =>
    intro page pg hh
    by_cases hp : page = 0
    · simp [findPageLoop, hp] at hh
    · by_cases hin : page ≤ objBlock ∧ objBlock < page + pageSize
      · simp [findPageLoop, hp, hin] at hh
        exact hh ▸ hp
      · simp [findPageLoop, hp, hin] at hh
        exact ih hh

/-- Writing a byte then reading it back. -/
theorem writeByte_self (m : Mem) (a v : Nat) :
    memRead (writeByte m a v) a = v % 256 := by
  simp [writeByte, memRead]

/-- Writing a byte elsewhere leaves a read unchanged. -/
theorem writeByte_ne (m : Mem) {a x : Nat} (v : Nat) (h : x ≠ a) :
    memRead (writeByte m a v) x = memRead m x := by
  simp [writeByte, memRead, h]

/-- Reading a freshly consed entry. -/
theorem memRead_cons_eq (b v : Nat) (m : Mem) :
    memRead ((b, v) :: m) b = v := by
  simp [memRead]

/-- Reading past a consed entry for a different address. -/
theorem memRead_cons_ne (b v : Nat) (m : Mem) (a : Nat) (h : a ≠ b) :
    memRead ((b, v) :: m) a = memRead m a := by
  simp [memRead, h]

/-- Reading a 4-byte value just written recovers it modulo `2^32`. -/
theorem read4_write4 (m : Mem) (a v : Nat) :
    read4 (write4 m a v) a = v % U32 := by
  have e0 : memRead (write4 m a v) a = v % 256 := by
    simp only [write4, writeByte]
    rw [memRead_cons_ne _ _ _ _ (by omega), memRead_cons_ne _ _ _ _ (by omega),
      memRead_cons_ne _ _ _ _ (by omega), memRead_cons_eq]
  have e1 : memRead (write4 m a v) (a + 1) = v / 256 % 256 := by
    simp only [write4, writeByte]
    rw [memRead_cons_ne _ _ _ _ (by omega), memRead_cons_ne _ _ _ _ (by omega),
      memRead_cons_eq]
  have e2 : memRead (write4 m a v) (a + 2) = v / 256 ^ 2 % 256 := by
    simp only [write4, writeByte]
    rw [memRead_cons_ne _ _ _ _ (by omega), memRead_cons_eq]
  have e3 : memRead (write4 m a v) (a + 3) = v / 256 ^ 3 % 256 := by
    simp only [write4, writeByte]
    rw [memRead_cons_eq]
  rw [read4, e0, e1, e2, e3]
  have p2 : (256 : Nat) ^ 2 = 65536 := by norm_num
  have p3 : (256 : Nat) ^ 3 = 16777216 := by norm_num
  have pU : U32 = 4294967296 := by norm_num [U32]
  rw [p2, p3, pU]
  omega

/-- Writing a byte four past `a` leaves the 4-byte read at `a`
unchanged. -/
theorem read4_writeByte_past (m : Mem) (a v : Nat) :
    read4 (writeByte m (a + 4) v) a = read4 m a := by
  simp only [read4, writeByte]
  rw [memRead_cons_ne _ _ _ _ (by omega), memRead_cons_ne _ _ _ _ (by omega),
    memRead_cons_ne _ _ _ _ (by omega), memRead_cons_ne _ _ _ _ (by omega)]

/-- Unfolding lemma: the threading loop with no fuel left. -/
theorem threadLoop_zero (cfg : OAConfig) (objSize pageEnd : Nat)
    (m : Mem) (fl adv : Nat) :
    threadLoop cfg objSize pageEnd 0 m fl adv = (m, fl, adv) := rfl

/-- Unfolding lemma: one step of the threading loop. -/
theorem threadLoop_succ (cfg : OAConfig) (objSize pageEnd n : Nat)
    (m : Mem) (fl adv : Nat) :
    threadLoop cfg objSize pageEnd (n + 1) m fl adv =
      if adv = pageEnd then (m, fl, adv)
      else threadLoop cfg objSize pageEnd n
        (threadBlock cfg objSize pageEnd m fl adv).1
        (threadBlock cfg objSize pageEnd m fl adv).2.1
        (threadBlock cfg objSize pageEnd m fl adv).2.2 := rfl

/-- `threadBlock` always sets the free-list head to the user-region start
of the block it just threaded. -/
theorem threadBlock_fl (cfg : OAConfig) (objSize pageEnd : Nat)
    (m : Mem) (fl adv : Nat) :
    (threadBlock cfg objSize pageEnd m fl adv).2.1 =
      adv + cfg.HSize_ + cfg.PadBytes_ := by
  simp only [threadBlock]
  split <;> rfl

/-- When the advance pointer has not reached the page end, `threadBlock`
advances it by one full stride (inter-alignment included). -/
theorem threadBlock_adv (cfg : OAConfig) (objSize pageEnd : Nat)
    (m : Mem) (fl adv : Nat)
    (h : adv + cfg.HSize_ + cfg.PadBytes_ + objSize + cfg.PadBytes_ ≠
      pageEnd) :
    (threadBlock cfg objSize pageEnd m fl adv).2.2 =
      adv + cfg.HSize_ + cfg.PadBytes_ + objSize + cfg.PadBytes_ +
        cfg.InterAlignSize_ := by
  simp only [threadBlock]
  rw [if_pos h]

/-- The slot-threading loop of `CreatePage` leaves the free-list head at
the start of the LAST block it threads: with `n ≥ 1` blocks remaining at
advance pointer `adv` and the page end exactly `n` strides (minus the
final inter-alignment) away, the resulting head is the user-region start
of block `n - 1`. -/
theorem threadLoop_fl (cfg : OAConfig) (objSize : Nat)
    (hobj : 1 ≤ objSize) :
    ∀ (n : Nat), 1 ≤ n → ∀ (pageEnd : Nat) (m : Mem) (fl adv : Nat),
      pageEnd + cfg.InterAlignSize_ = adv + n * strideOf cfg objSize →
      (threadLoop cfg objSize pageEnd n m fl adv).2.1 =
        adv + (n - 1) * strideOf cfg objSize + cfg.HSize_ + cfg.PadBytes_ := by
  intro n
  induction n with
  | zero => intro h; omega
  | succ k ih =>
    intro _ pageEnd m fl adv hEnd
    have hS : strideOf cfg objSize =
        cfg.HSize_ + cfg.PadBytes_ + objSize + cfg.PadBytes_ +
          cfg.InterAlignSize_ := rfl
    rcases Nat.eq_zero_or_pos k with rfl | hk
    · -- last block: the advance pointer lands exactly on the page end,
      -- so the inter-alignment branch is skipped and the loop stops
      rw [Nat.one_mul] at hEnd
      have hne : adv ≠ pageEnd := by omega
      rw [threadLoop_succ, if_neg hne, threadLoop_zero]
      rw [threadBlock_fl]
      omega
    · -- middle block: the advance pointer stays short of the page end,
      -- the inter-alignment is painted and the loop recurses
      obtain ⟨j, rfl⟩ : ∃ j, k = j + 1 := ⟨k - 1, by omega⟩
      have h2 : (j + 1 + 1) * strideOf cfg objSize =
          j * strideOf cfg objSize + strideOf cfg objSize +
            strideOf cfg objSize := by ring
      rw [h2] at hEnd
      have hne : adv ≠ pageEnd := by omega
      have hmid : adv + cfg.HSize_ + cfg.PadBytes_ + objSize + cfg.PadBytes_ ≠
          pageEnd := by omega
      have h3 : (j + 1) * strideOf cfg objSize =
          j * strideOf cfg objSize + strideOf cfg objSize := by ring
      rw [threadLoop_succ, if_neg hne]
      rw [ih (by omega)]
      · rw [threadBlock_adv cfg objSize pageEnd m fl adv hmid]
        simp only [Nat.add_sub_cancel, h3]
        omega
      · rw [threadBlock_adv cfg objSize pageEnd m fl adv hmid, h3]
        omega

/-- `CreatePage` when the system heap refuses: only `E_NO_MEMORY` comes
back, with no allocator state mutated (the heap tick is part of the
heap model, not of the allocator). -/
theorem CreatePage_tick_false (ork : Nat → Bool) (s : OAState)
    (h : ork s.heapTick = false) :
    CreatePage ork s =
      (.error .E_NO_MEMORY, { s with heapTick := s.heapTick + 1 }) := by
  simp [CreatePage, h]

/-- `CreatePage` when the system heap grants the page: the explicit
resulting state. -/
theorem CreatePage_tick_true (ork : Nat → Bool) (s : OAState)
    (h : ork s.heapTick = true) :
    CreatePage ork s = (.ok (), { s with
      heapTick := s.heapTick + 1
      nextAddr := s.nextAddr + s.stats.PageSize_
      mem := (threadLoop s.config s.stats.ObjectSize_
        (s.nextAddr + s.stats.PageSize_) s.config.ObjectsPerPage_
        (writeBytes (write8 (writeBytes s.mem s.nextAddr s.stats.PageSize_
          UNALLOCATED_PATTERN) s.nextAddr s.pageList)
          (s.nextAddr + ptrSize) s.config.LeftAlignSize_ ALIGN_PATTERN)
        s.freeList (s.nextAddr + ptrSize + s.config.LeftAlignSize_)).1
      freeList := (threadLoop s.config s.stats.ObjectSize_
        (s.nextAddr + s.stats.PageSize_) s.config.ObjectsPerPage_
        (writeBytes (write8 (writeBytes s.mem s.nextAddr s.stats.PageSize_
          UNALLOCATED_PATTERN) s.nextAddr s.pageList)
          (s.nextAddr + ptrSize) s.config.LeftAlignSize_ ALIGN_PATTERN)
        s.freeList (s.nextAddr + ptrSize + s.config.LeftAlignSize_)).2.1
      pageList := s.nextAddr
      stats := { s.stats with
        PagesInUse_ := u32inc s.stats.PagesInUse_
        FreeObjects_ := (s.stats.FreeObjects_ + s.config.ObjectsPerPage_) % U32 } }) := by
  simp [CreatePage, h]

/-- `Allocate` with a non-empty free list, no bypass and no external
header: pop the head, paint it, update the statistics, write the header
info. -/
theorem Allocate_pop (ork : Nat → Bool) (lbl : Option String) (s : OAState)
    (hbp : s.config.UseCPPMemManager_ = false) (hfl : s.freeList ≠ 0)
    (hext : s.config.HType_ ≠ .hbExternal) :
    Allocate ork lbl s = (.ok s.freeList,
      UpdateHeaderInfo { s with
        freeList := read8 s.mem s.freeList
        mem := writeBytes s.mem s.freeList s.stats.ObjectSize_
          ALLOCATED_PATTERN
        stats := UpdateAllocationStats s.stats } s.freeList allocFlag) := by
  simp [Allocate, hbp, hfl, hext]

/-- `Free` of a non-null address with debug checks off runs the mutation
phase directly. -/
theorem Free_nodebug (fuel Object : Nat) (s : OAState)
    (hbp : s.config.UseCPPMemManager_ = false) (h0 : Object ≠ 0)
    (hdbg : s.config.DebugOn_ = false) :
    Free fuel Object s = (.ok (), FreeBody s Object) := by
  simp [Free, hbp, h0, hdbg]

/-- `u64sub` is plain subtraction in the overflow-free range. -/
theorem u64sub_small (x y : Nat) (hy : y ≤ x) (hx : x < U64) :
    u64sub x y = x - y := by
  have h1 : y % U64 = y := Nat.mod_eq_of_lt (lt_of_le_of_lt hy hx)
  rw [u64sub, h1]
  have h2 : x + U64 - y = (x - y) + U64 := by omega
  rw [h2, Nat.add_mod_right]
  exact Nat.mod_eq_of_lt (by omega)

/-- With at least one slot per page, a positive object size and no
`size_t` overflow, the constructor-computed page size satisfies the
intended geometry identity `pageBytes + interAlign = ptrSize + leftAlign
+ objectsPerPage · stride`. -/
theorem computedPageSize_spec (ObjectSize : Nat) (cfg : OAConfig)
    (hopp : 1 ≤ cfg.ObjectsPerPage_) (hobj : 1 ≤ ObjectSize)
    (hsmall : ptrSize + cfg.LeftAlignSize_ +
      cfg.ObjectsPerPage_ * strideOf cfg ObjectSize < U64) :
    computedPageSize ObjectSize cfg + cfg.InterAlignSize_ =
      ptrSize + cfg.LeftAlignSize_ +
        cfg.ObjectsPerPage_ * strideOf cfg ObjectSize := by
  have hstride_eq : cfg.HSize_ + cfg.PadBytes_ + ObjectSize + cfg.PadBytes_ +
      cfg.InterAlignSize_ = strideOf cfg ObjectSize := rfl
  have htot_lt : cfg.ObjectsPerPage_ * strideOf cfg ObjectSize < U64 := by
    omega
  have h1 : cfg.ObjectsPerPage_ * (cfg.HSize_ + cfg.PadBytes_ + ObjectSize +
      cfg.PadBytes_ + cfg.InterAlignSize_) % U64 =
      cfg.ObjectsPerPage_ * strideOf cfg ObjectSize := by
    rw [hstride_eq]
    exact Nat.mod_eq_of_lt htot_lt
  have hle : cfg.InterAlignSize_ ≤
      cfg.ObjectsPerPage_ * strideOf cfg ObjectSize := by
    have h2 : cfg.InterAlignSize_ ≤ strideOf cfg ObjectSize := by
      rw [← hstride_eq]; omega
    have h3 : strideOf cfg ObjectSize ≤
        cfg.ObjectsPerPage_ * strideOf cfg ObjectSize :=
      Nat.le_mul_of_pos_left _ hopp
    omega
  simp only [computedPageSize]
  rw [h1, Nat.mod_eq_of_lt hsmall, u64sub_small _ _ (by omega) hsmall]
  omega

/-- `derivedConfig` only rewrites the two alignment fields. -/
theorem derivedConfig_opp (ObjectSize : Nat) (cfg : OAConfig) :
    (derivedConfig ObjectSize cfg).ObjectsPerPage_ = cfg.ObjectsPerPage_ := by
  simp only [derivedConfig]
  split <;> (try split) <;> (try split) <;> rfl

/-- After a granted `CreatePage`, the free-list head is the user-region
start of the last (highest-address) slot of the new page. -/
theorem CreatePage_fl (ork : Nat → Bool) (s : OAState)
    (h : ork s.heapTick = true) (hopp : 1 ≤ s.config.ObjectsPerPage_)
    (hobj : 1 ≤ s.stats.ObjectSize_)
    (hps : s.stats.PageSize_ + s.config.InterAlignSize_ =
      ptrSize + s.config.LeftAlignSize_ +
        s.config.ObjectsPerPage_ * strideOf s.config s.stats.ObjectSize_) :
    (CreatePage ork s).2.freeList =
      slotAddr s.config s.stats.ObjectSize_ s.nextAddr
        (s.config.ObjectsPerPage_ - 1) := by
  rw [CreatePage_tick_true ork s h]
  exact threadLoop_fl s.config s.stats.ObjectSize_ hobj
    s.config.ObjectsPerPage_ hopp (s.nextAddr + s.stats.PageSize_) _
    s.freeList (s.nextAddr + ptrSize + s.config.LeftAlignSize_) (by omega)

/-- C4: the claim says the page builder head-inserts each slot in
ascending address order AND that the lowest-address slot ends at the
head.  The head-insertion makes the LAST (highest-address) slot the
head; this amended theorem proves the head is the user-region start of
slot `objectsPerPage - 1`, and that slot addresses strictly increase
with the slot index, so the head is the highest-address slot, not the
lowest. -/
theorem C4_amended_head_is_highest_slot (ork : Nat → Bool) (s : OAState)
    (h : ork s.heapTick = true) (hopp : 1 ≤ s.config.ObjectsPerPage_)
    (hobj : 1 ≤ s.stats.ObjectSize_)
    (hps : s.stats.PageSize_ + s.config.InterAlignSize_ =
      ptrSize + s.config.LeftAlignSize_ +
        s.config.ObjectsPerPage_ * strideOf s.config s.stats.ObjectSize_) :
    (CreatePage ork s).1 = .ok () ∧
    (CreatePage ork s).2.freeList =
      slotAddr s.config s.stats.ObjectSize_ s.nextAddr
        (s.config.ObjectsPerPage_ - 1) ∧
    ∀ j k : Nat, j < k →
      slotAddr s.config s.stats.ObjectSize_ s.nextAddr j <
        slotAddr s.config s.stats.ObjectSize_ s.nextAddr k := by
  refine ⟨?_, CreatePage_fl ork s h hopp hobj hps, ?_⟩
  · rw [CreatePage_tick_true ork s h]
  · intro j k hjk
    have hpos : 0 < strideOf s.config s.stats.ObjectSize_ := by
      simp only [strideOf]; omega
    have hmul : j * strideOf s.config s.stats.ObjectSize_ <
        k * strideOf s.config s.stats.ObjectSize_ :=
      Nat.mul_lt_mul_of_lt_of_le hjk (Nat.le_refl _) hpos
    simp only [slotAddr]
    omega

/-- C4 witness: a two-slot page (`objectSize 8`, no pads, no header) at
base 16 — the head is slot 1 at 32, and slot addresses increase. -/
theorem C4_amended_witness :
    (CreatePage exOrk (initState 8 dbg2Cfg)).1 = .ok () ∧
    (CreatePage exOrk (initState 8 dbg2Cfg)).2.freeList =
      slotAddr (initState 8 dbg2Cfg).config 8 16 1 ∧
    slotAddr (initState 8 dbg2Cfg).config 8 16 0 <
      slotAddr (initState 8 dbg2Cfg).config 8 16 1 := by
  have h := C4_amended_head_is_highest_slot exOrk (initState 8 dbg2Cfg)
    (by decide) (by decide) (by decide) (by decide)
  exact ⟨h.1, h.2.1, h.2.2 0 1 (by decide)⟩

/-- C4 counterexample: for the same two-slot page the claim as written
says the LOWEST-address slot (user region 24) ends at the head; the head
is in fact 32, the higher slot. -/
theorem C4_counterexample_head_not_lowest :
    dbg2S0.freeList = 32 ∧
    slotAddr dbg2S0.config 8 16 0 = 24 ∧
    slotAddr dbg2S0.config 8 16 1 = 32 ∧
    slotAddr dbg2S0.config 8 16 0 < dbg2S0.freeList := by
  decide

/-- C2: the claim says construction fails with `configuration-invalid`
for undersized objects or non-power-of-two alignment.  The constructor
performs NO configuration validation: for EVERY oracle, object size and
configuration it either fails with the first page's `E_NO_MEMORY` or
returns an allocator — the `configuration-invalid` error is never
raised. -/
theorem C2_amended_no_config_validation (ork : Nat → Bool)
    (ObjectSize : Nat) (cfg : OAConfig) :
    construct ork ObjectSize cfg = .error .E_NO_MEMORY ∨
      (construct ork ObjectSize cfg).isOk = true := by
  by_cases h0 : ork (initState ObjectSize cfg).heapTick = false
  · left
    unfold construct
    rw [CreatePage_tick_false _ _ h0]
  · have h1 : ork (initState ObjectSize cfg).heapTick = true := by
      revert h0
      cases ork (initState ObjectSize cfg).heapTick <;> simp
    right
    unfold construct
    rw [CreatePage_tick_true _ _ h1]
    rfl

/-- C2 counterexample: a configuration the spec calls invalid on both
counts (`objectSize 4 < sizeof(nextPointer) = 8`, `alignment 3` not a
power of two) constructs successfully — an allocator IS produced and no
`configuration-invalid` error is raised. -/
theorem C2_counterexample_invalid_config_accepted :
    (construct exOrk 4 badCfg).isOk = true ∧ 4 < ptrSize ∧
    badCfg.Alignment_ = 3 := by
  decide

/-- C10: construction builds one page eagerly for every configuration
(bypass mode included — nothing in the constructor consults
`UseCPPMemManager_`): if the heap refuses the first page the constructor
itself fails with out-of-memory, and otherwise the fresh allocator has
`pagesInUse = 1`, `freeObjects = objectsPerPage` and a non-empty free
list.  Hypotheses: at least one slot per page, positive object size, no
`size_t`/`unsigned` overflow in the geometry. -/
theorem C10_eager_first_page (ork : Nat → Bool) (ObjectSize : Nat)
    (cfg : OAConfig) (hopp : 1 ≤ cfg.ObjectsPerPage_)
    (hobj : 1 ≤ ObjectSize) (hopp32 : cfg.ObjectsPerPage_ < U32)
    (hsmall : ptrSize + (derivedConfig ObjectSize cfg).LeftAlignSize_ +
      (derivedConfig ObjectSize cfg).ObjectsPerPage_ *
        strideOf (derivedConfig ObjectSize cfg) ObjectSize < U64) :
    (ork 0 = false → construct ork ObjectSize cfg = .error .E_NO_MEMORY) ∧
    (ork 0 = true → ∃ s, construct ork ObjectSize cfg = .ok s ∧
      s.stats.PagesInUse_ = 1 ∧
      s.stats.FreeObjects_ = cfg.ObjectsPerPage_ ∧ s.freeList ≠ 0) := by
  have hopp' : 1 ≤ (derivedConfig ObjectSize cfg).ObjectsPerPage_ := by
    rw [derivedConfig_opp]; exact hopp
  constructor
  · intro h0
    unfold construct
    rw [CreatePage_tick_false _ _ h0]
  · intro h1
    refine ⟨(CreatePage ork (initState ObjectSize cfg)).2, ?_, ?_, ?_, ?_⟩
    · unfold construct
      rw [CreatePage_tick_true _ _ h1]
    · rw [CreatePage_tick_true _ _ h1]
      show u32inc (0 : Nat) = 1
      decide
    · rw [CreatePage_tick_true _ _ h1]
      show ((0 : Nat) +
        (initState ObjectSize cfg).config.ObjectsPerPage_) % U32 =
        cfg.ObjectsPerPage_
      have : (initState ObjectSize cfg).config.ObjectsPerPage_ =
          cfg.ObjectsPerPage_ := derivedConfig_opp ObjectSize cfg
      rw [this, Nat.zero_add]
      exact Nat.mod_eq_of_lt hopp32
    · have hfl := CreatePage_fl ork (initState ObjectSize cfg) h1 hopp'
        (by exact hobj)
        (by
          show computedPageSize ObjectSize (derivedConfig ObjectSize cfg) +
            (derivedConfig ObjectSize cfg).InterAlignSize_ = _
          rw [computedPageSize_spec ObjectSize (derivedConfig ObjectSize cfg)
            hopp' hobj hsmall]
          rfl)
      rw [hfl]
      simp only [slotAddr]
      show (16 : Nat) + ptrSize + _ + _ + _ + _ ≠ 0
      omega

/-- C10 witness: the theorem applied at the bypass configuration
(`useSystemHeap` on, 4 objects per page, `objectSize 8`) under the
always-granting oracle; a page is built eagerly even in bypass mode. -/
theorem C10_witness :
    bypassS0.stats.PagesInUse_ = 1 ∧
    bypassS0.stats.FreeObjects_ = bypassCfg.ObjectsPerPage_ := by
  obtain ⟨s, hs, h1, h2, _⟩ :=
    (C10_eager_first_page exOrk 8 bypassCfg (by decide) (by decide)
      (by decide) (by decide)).2 rfl
  have hb : bypassS0 = s := by
    unfold bypassS0
    rw [hs, stateOf]
  rw [hb]
  exact ⟨h1, h2⟩

/-- C3: in debug mode, releasing an address that is already on the free
list (as every address released and not re-acquired since is) raises
`multiple-free`, and the operation returns with the state COMPLETELY
unchanged — in particular the error is decided by the free-list scan
before any painting of the user region happens, so the prior `FREED`
pattern is never masked. -/
theorem C3_double_free_raises (fuel : Nat) (s : OAState) (a : Nat)
    (L : List Nat) (hbp : s.config.UseCPPMemManager_ = false)
    (hdbg : s.config.DebugOn_ = true) (hd : DecodesFL s.mem s.freeList L)
    (hmem : a ∈ L) (hfuel : L.length ≤ fuel) :
    Free fuel a s = (.error .E_MULTIPLE_FREE, s) := by
  have ha : a ≠ 0 := hd.mem_ne_zero hmem
  have hscan : IsMemoryFreed s fuel a = true :=
    scanFreeLoop_mem hd hmem fuel hfuel
  simp [Free, hbp, ha, hdbg, IsMemoryFreed] at hscan ⊢
  simp [hscan]

/-- C3 witness: one-slot page in debug mode; the slot 24 is acquired and
released once (free list `[24]`), and the second release raises
`multiple-free` leaving the state untouched. -/
theorem C3_witness :
    Free 1 24 dbgS2 = (.error .E_MULTIPLE_FREE, dbgS2) := by
  have h24 : read8 dbgS2.mem 24 = 0 := by decide
  have hfl : dbgS2.freeList = 24 := by decide
  have hd : DecodesFL dbgS2.mem dbgS2.freeList [24] := by
    rw [hfl]
    refine DecodesFL.cons (by decide) ?_
    rw [h24]
    exact DecodesFL.nil
  exact C3_double_free_raises 1 dbgS2 24 [24] (by decide) (by decide) hd
    (by decide) (by decide)

/-- C8: the claim says releasing null is a no-op in EVERY configuration,
bypass mode included.  In bypass mode `Free` updates the deallocation
statistics before handing the pointer to the system heap, null or not;
this amended theorem gives the exact behaviour: a null release leaves
the state unchanged only without bypass, and in bypass mode it applies
`UpdateDeallocationStats` (so `deallocations` and `freeObjects` grow and
`objectsInUse` wraps down). -/
theorem C8_amended_null_release (fuel : Nat) (s : OAState) :
    Free fuel 0 s = (.ok (),
      if s.config.UseCPPMemManager_ then
        { s with stats := UpdateDeallocationStats s.stats }
      else s) := by
  by_cases h : s.config.UseCPPMemManager_ <;> simp [Free, h]

/-- C8 counterexample: in the bypass configuration a null release
mutates the statistics (`deallocations` 0 to 1, `freeObjects` 4 to 5,
`objectsInUse` wraps from 0 to `2^32 - 1`), refuting the claim that no
statistics counter changes. -/
theorem C8_counterexample_bypass_null_mutates :
    bypassS0.stats.Deallocations_ = 0 ∧
    (Free 10 0 bypassS0).2.stats.Deallocations_ = 1 ∧
    bypassS0.stats.FreeObjects_ = 4 ∧
    (Free 10 0 bypassS0).2.stats.FreeObjects_ = 5 ∧
    (Free 10 0 bypassS0).2.stats.ObjectsInUse_ = 4294967295 := by
  decide

/-- C1: the claim says a failing acquire mutates no visible state and
frees any partial descriptor.  With an external header, when the
descriptor allocation succeeds (heap tick `t`) but its label-string
allocation fails (tick `t + 1`), `Allocate` raises `out-of-memory`
AFTER the slot was popped off the free list, painted, and the
statistics updated — and the partially allocated descriptor is NOT
freed: it stays in the live-descriptor set.  This amended theorem gives
that exact behaviour. -/
theorem C1_amended_external_oom_after_mutation (ork : Nat → Bool)
    (lbl : Option String) (s : OAState)
    (hbp : s.config.UseCPPMemManager_ = false)
    (hht : s.config.HType_ = .hbExternal) (hfl : s.freeList ≠ 0)
    (ht1 : ork s.heapTick = true) (ht2 : ork (s.heapTick + 1) = false) :
    (Allocate ork lbl s).1 = .error .E_NO_MEMORY ∧
    (Allocate ork lbl s).2.stats.Allocations_ =
      u32inc s.stats.Allocations_ ∧
    (Allocate ork lbl s).2.stats.FreeObjects_ =
      u32dec s.stats.FreeObjects_ ∧
    (Allocate ork lbl s).2.freeList = read8 s.mem s.freeList ∧
    (Allocate ork lbl s).2.descs =
      (s.nextAddr, ⟨false, 0, ""⟩) :: s.descs := by
  simp [Allocate, AllocateExternalHeader, hbp, hfl, hht, ht1, ht2,
    UpdateAllocationStats]

/-- C1 witness: the amended theorem at the concrete external-header
allocator (`extS0`, free slot 32, heap tick 1) under the oracle that
refuses the label allocation (tick 2). -/
theorem C1_amended_witness :
    (Allocate extOrk (some "tag") extS0).1 = .error .E_NO_MEMORY ∧
    (Allocate extOrk (some "tag") extS0).2.stats.Allocations_ =
      u32inc extS0.stats.Allocations_ ∧
    (Allocate extOrk (some "tag") extS0).2.stats.FreeObjects_ =
      u32dec extS0.stats.FreeObjects_ ∧
    (Allocate extOrk (some "tag") extS0).2.freeList =
      read8 extS0.mem extS0.freeList ∧
    (Allocate extOrk (some "tag") extS0).2.descs =
      (extS0.nextAddr, ⟨false, 0, ""⟩) :: extS0.descs :=
  C1_amended_external_oom_after_mutation extOrk (some "tag") extS0
    (by decide) (by decide) (by decide) (by decide) (by decide)

/-- C1 counterexample: at the concrete input the label allocation fails
with `out-of-memory`, yet `allocations` reads 1 (was 0), the free list
was popped (head 32 became null), and one descriptor is left live
(leaked) — the claim required the state to be as if the acquire had
never started and the partial descriptor to be freed. -/
theorem C1_counterexample_state_mutated_on_oom :
    (Allocate extOrk (some "tag") extS0).1 = .error .E_NO_MEMORY ∧
    extS0.stats.Allocations_ = 0 ∧
    (Allocate extOrk (some "tag") extS0).2.stats.Allocations_ = 1 ∧
    extS0.freeList = 32 ∧
    (Allocate extOrk (some "tag") extS0).2.freeList = 0 ∧
    extS0.descs.length = 0 ∧
    (Allocate extOrk (some "tag") extS0).2.descs.length = 1 := by
  decide

/-- `Allocate` with a non-empty free list and a `basic` header, fully
explicit: pop, paint, update statistics, write `allocations + 1` (the
just-incremented counter) into the header's 4-byte counter and set the
flag byte. -/
theorem Allocate_basic (ork : Nat → Bool) (lbl : Option String)
    (s : OAState) (hbp : s.config.UseCPPMemManager_ = false)
    (hht : s.config.HType_ = .hbBasic) (hfl : s.freeList ≠ 0) :
    Allocate ork lbl s = (.ok s.freeList, { s with
      freeList := read8 s.mem s.freeList
      mem := writeByte (write4 (writeBytes s.mem s.freeList
        s.stats.ObjectSize_ ALLOCATED_PATTERN)
        (headerStartOf s.config s.freeList)
        (u32inc s.stats.Allocations_))
        (headerStartOf s.config s.freeList + 4) allocFlag
      stats := UpdateAllocationStats s.stats }) := by
  have hext : s.config.HType_ ≠ .hbExternal := by rw [hht]; simp
  simp [Allocate, hbp, hfl, hext, UpdateHeaderInfo, hht,
    UpdateAllocationStats, u32inc]

/-- `Free` of a non-null address with debug off and a `basic` header,
fully explicit: paint `FREED`, head-insert, update statistics, zero the
header counter and clear the flag byte. -/
theorem Free_basic (fuel ob : Nat) (s : OAState)
    (hbp : s.config.UseCPPMemManager_ = false)
    (hht : s.config.HType_ = .hbBasic)
    (hdbg : s.config.DebugOn_ = false) (h0 : ob ≠ 0) :
    Free fuel ob s = (.ok (), { s with
      mem := writeByte (write4 (write8 (writeBytes s.mem ob
        s.stats.ObjectSize_ FREED_PATTERN) ob s.freeList)
        (headerStartOf s.config ob) 0)
        (headerStartOf s.config ob + 4) freedFlag
      freeList := ob
      stats := UpdateDeallocationStats s.stats }) := by
  simp [Free, FreeBody, hbp, hht, hdbg, h0, UpdateHeaderInfo,
    freedFlag, allocFlag]

/-- C6: with the `basic` header variant, immediately after a successful
acquire the returned slot's 4-byte header counter holds the new
cumulative allocation count `allocations + 1` (i.e. `n` for the `n`-th
acquire) and the in-use flag byte is 1; releasing that slot zeroes the
counter and clears the flag.  The debug toggle is off so the release
path runs its mutation phase directly. -/
theorem C6_basic_header_counter (ork : Nat → Bool) (lbl : Option String)
    (s : OAState) (hbp : s.config.UseCPPMemManager_ = false)
    (hht : s.config.HType_ = .hbBasic)
    (hdbg : s.config.DebugOn_ = false) (hfl : s.freeList ≠ 0)
    (hlt : s.stats.Allocations_ + 1 < U32) :
    (Allocate ork lbl s).1 = .ok s.freeList ∧
    read4 (Allocate ork lbl s).2.mem (headerStartOf s.config s.freeList) =
      s.stats.Allocations_ + 1 ∧
    memRead (Allocate ork lbl s).2.mem
      (headerStartOf s.config s.freeList + 4) = 1 ∧
    ∀ fuel,
      (Free fuel s.freeList (Allocate ork lbl s).2).1 = .ok () ∧
      read4 (Free fuel s.freeList (Allocate ork lbl s).2).2.mem
        (headerStartOf s.config s.freeList) = 0 ∧
      memRead (Free fuel s.freeList (Allocate ork lbl s).2).2.mem
        (headerStartOf s.config s.freeList + 4) = 0 := by
  rw [Allocate_basic ork lbl s hbp hht hfl]
  simp only []
  refine ⟨trivial, ?_, ?_, ?_⟩
  · rw [read4_writeByte_past, read4_write4]
    simp only [u32inc, U32] at hlt ⊢
    omega
  · rw [writeByte_self]
    decide
  · intro fuel
    rw [Free_basic fuel s.freeList]
    · simp only []
      refine ⟨trivial, ?_, ?_⟩
      · rw [read4_writeByte_past, read4_write4]
        exact Nat.zero_mod _
      · rw [writeByte_self]
        decide
    · exact hbp
    · exact hht
    · exact hdbg
    · exact hfl

/-- C6 witness: the theorem at the concrete `basic`-header allocator of
spec scenario 4 (`objectSize 16`, 2 slots per page; first acquire
returns slot 50, counter reads 1, flag reads 1; releasing zeroes
both). -/
theorem C6_witness :
    (Allocate exOrk none basicS0).1 = .ok basicS0.freeList ∧
    read4 (Allocate exOrk none basicS0).2.mem
      (headerStartOf basicS0.config basicS0.freeList) =
      basicS0.stats.Allocations_ + 1 ∧
    memRead (Allocate exOrk none basicS0).2.mem
      (headerStartOf basicS0.config basicS0.freeList + 4) = 1 ∧
    (Free 10 basicS0.freeList (Allocate exOrk none basicS0).2).1 =
      .ok () ∧
    read4 (Free 10 basicS0.freeList
      (Allocate exOrk none basicS0).2).2.mem
      (headerStartOf basicS0.config basicS0.freeList) = 0 ∧
    memRead (Free 10 basicS0.freeList
      (Allocate exOrk none basicS0).2).2.mem
      (headerStartOf basicS0.config basicS0.freeList + 4) = 0 := by
  have h := C6_basic_header_counter exOrk none basicS0 (by decide)
    (by decide) (by decide) (by decide) (by decide)
  exact ⟨h.1, h.2.1, h.2.2.1, (h.2.2.2 10).1, (h.2.2.2 10).2.1,
    (h.2.2.2 10).2.2⟩

/-- C7: the claim says the debug alignment check fails with
`bad-boundary` when the offset is not a stride multiple, when it is
negative, or when the implied index is out of range.  The code computes
`arg - firstUserRegion` as a `size_t` (wrapping modulo `2^64`) and ONLY
tests divisibility by the stride: this amended theorem shows that for a
release argument inside a live page (and not on the free list),
`bad-boundary` is raised exactly when the WRAPPED difference is not a
multiple of the stride — so a negative offset whose wrapped value is a
stride multiple passes, and no slot-index bound is enforced. -/
theorem C7_amended_alignment_is_wrapped_mod (fuel : Nat) (s : OAState)
    (a pg : Nat) (L : List Nat)
    (hbp : s.config.UseCPPMemManager_ = false)
    (hdbg : s.config.DebugOn_ = true) (ha : a ≠ 0)
    (hd : DecodesFL s.mem s.freeList L) (hnm : a ∉ L)
    (hfp : FindPage s fuel a = some pg) :
    (Free fuel a s).1 = .error .E_BAD_BOUNDARY ↔
      ¬ u64sub a (pg + ptrSize + s.config.LeftAlignSize_ + s.config.HSize_ +
        s.config.PadBytes_) %
        (s.stats.ObjectSize_ + s.config.PadBytes_ * 2 +
          s.config.InterAlignSize_ + s.config.HSize_) = 0 := by
  have hscan : IsMemoryFreed s fuel a = false := by
    simpa [IsMemoryFreed] using scanFreeLoop_not_mem hd hnm fuel
  have hpg : pg ≠ 0 := findPageLoop_ne_zero hfp
  by_cases hval : u64sub a (pg + ptrSize + s.config.LeftAlignSize_ +
      s.config.HSize_ + s.config.PadBytes_) %
      (s.stats.ObjectSize_ + s.config.PadBytes_ * 2 +
        s.config.InterAlignSize_ + s.config.HSize_) = 0
  · cases hpad : IsPaddingCorrupted s a <;>
      simp [Free, hbp, hdbg, ha, hscan, hfp, IsValidAlignment, hpg, hval,
        hpad]
  · simp [Free, hbp, hdbg, ha, hscan, hfp, IsValidAlignment, hpg, hval]

/-- C7 witness: the amended theorem at the two-slot debug allocator,
argument 25 (one byte past slot 24): the wrapped offset 1 is not a
multiple of the stride 8, so the release raises `bad-boundary`. -/
theorem C7_witness :
    (Free 10 25 dbg2S0).1 = .error .E_BAD_BOUNDARY := by
  have h32 : read8 dbg2S0.mem 32 = 24 := by decide
  have h24 : read8 dbg2S0.mem 24 = 0 := by decide
  have hfl : dbg2S0.freeList = 32 := by decide
  have hd : DecodesFL dbg2S0.mem dbg2S0.freeList [32, 24] := by
    rw [hfl]
    refine DecodesFL.cons (by decide) ?_
    rw [h32]
    refine DecodesFL.cons (by decide) ?_
    rw [h24]
    exact DecodesFL.nil
  exact (C7_amended_alignment_is_wrapped_mod 10 dbg2S0 25 16 [32, 24]
    (by decide) (by decide) (by decide) hd (by decide) (by decide)).mpr
    (by decide)

/-- C7 counterexample: the argument 16 is the page base itself — inside
the live page but 8 bytes BEFORE the first user region 24 (a negative
offset), which the claim says must fail with `bad-boundary`.  The
wrapped difference `2^64 - 8` is a multiple of the stride 8, every debug
check passes, and the release completes with no error. -/
theorem C7_counterexample_negative_offset_passes :
    (Free 10 16 dbg2S0).1 = .ok () ∧
    FindPage dbg2S0 10 16 = some 16 ∧
    (16 : Nat) < 16 + ptrSize + dbg2S0.config.LeftAlignSize_ +
      dbg2S0.config.HSize_ + dbg2S0.config.PadBytes_ := by
  decide

/-- C9: compaction must remove every slot of a released page from the
free list before the page's bytes are returned to the system heap.  In
the concrete run of spec scenario 6 variant (4 slots per page, two
pages; the four page-1 slots released in ascending address order so the
free list reads `48 → 40 → 32 → 24`), `FreeEmptyPages` releases exactly
page 1 (base 16, bytes `[16, 56)`) and returns 1 — but the excision
loop's slot cursor is never reset between outer iterations and its
`prev` pointer is left on an unlinked node, so only node 48 is removed:
the free-list head 40 and the whole remaining chain `40 → 32 → 24` still
point INTO the released page. -/
theorem C9_compaction_leaves_dangling_nodes :
    (FreeEmptyPages exOrk 50 bugS9).1 = .ok (1, [16]) ∧
    bugS9.stats.PageSize_ = 40 ∧
    (FreeEmptyPages exOrk 50 bugS9).2.freeList = 40 ∧
    16 ≤ 40 ∧ 40 < 16 + 40 ∧
    read8 (FreeEmptyPages exOrk 50 bugS9).2.mem 40 = 32 ∧
    read8 (FreeEmptyPages exOrk 50 bugS9).2.mem 32 = 24 ∧
    read8 (FreeEmptyPages exOrk 50 bugS9).2.mem 24 = 0 ∧
    (FreeEmptyPages exOrk 50 bugS9).2.pageList = 56 ∧
    read8 (FreeEmptyPages exOrk 50 bugS9).2.mem 56 = 0 := by
  decide

/-- C5: the statistics invariant `freeObjects + objectsInUse ==
pagesInUse · objectsPerPage` holds up to and including the compaction of
the concrete run above (0 + 4 = 1 · 4 after compaction) — but the very
next acquire pops one of the dangling free-list nodes left by the
compaction bug and decrements `freeObjects` past zero, wrapping the
`unsigned` counter to `2^32 - 1`: the invariant is violated at an
observable state of a bypass-free operation sequence. -/
theorem C5_invariant_broken_after_compaction :
    bugCfg.UseCPPMemManager_ = false ∧
    bugCfg.ObjectsPerPage_ = 4 ∧
    bugS9.stats.FreeObjects_ + bugS9.stats.ObjectsInUse_ =
      bugS9.stats.PagesInUse_ * 4 ∧
    (FreeEmptyPages exOrk 50 bugS9).2.stats.FreeObjects_ +
      (FreeEmptyPages exOrk 50 bugS9).2.stats.ObjectsInUse_ =
      (FreeEmptyPages exOrk 50 bugS9).2.stats.PagesInUse_ * 4 ∧
    (Allocate exOrk none
      (FreeEmptyPages exOrk 50 bugS9).2).2.stats.FreeObjects_ =
      4294967295 ∧
    (Allocate exOrk none
      (FreeEmptyPages exOrk 50 bugS9).2).2.stats.ObjectsInUse_ = 5 ∧
    (Allocate exOrk none
      (FreeEmptyPages exOrk 50 bugS9).2).2.stats.PagesInUse_ = 1 ∧
    (1 * 4 : Nat) < 4294967295 + 5 := by
  decide

end OA
